import Mathlib

/-!
Verification development for the arabi-flow-forge repository.

The definitions below are a shallow embedding of the TypeScript sources:
the generic query engine (src/services/api.ts, filterAndPaginate), the
in-memory CRUD store (userApi / productApi / orderApi), the landing-page
generation pipeline (LandingPageGenerator together with the external
service adapters of realApiServices.ts), and the COD order service
(codOrderService).  JS numbers that hold money are modelled as rationals,
integer quantities and indices as naturals, strings as Lean strings, and
every external call as an oracle value passed in explicitly.
-/

namespace ArabiFlow

/-! ### Query engine: filterAndPaginate -/

/-- Sort order of QueryParams: the literal union type asc | desc. -/
inductive SortOrder where
  | asc
  | desc
deriving DecidableEq, Repr

/-- QueryParams of src/types/api.ts.  page, limit, search, sortOrder,
sortBy are all optional.  The source accesses the sort field dynamically
as (a as any)[params.sortBy]; the shallow embedding renders a chosen sort
field as a key function into a linearly ordered type K. -/
structure QueryParams (T K : Type) where
  page : Option Nat := none
  limit : Option Nat := none
  search : Option String := none
  sortBy : Option (T → K) := none
  sortOrder : Option SortOrder := none

/-- Pagination metadata returned by filterAndPaginate. -/
structure Pagination where
  page : Nat
  limit : Nat
  total : Nat
  totalPages : Nat
deriving DecidableEq, Repr

/-- Result shape of filterAndPaginate: the page of records plus metadata. -/
structure PageResult (T : Type) where
  data : List T
  pagination : Pagination
deriving DecidableEq, Repr

/-- JS falsy-or-default on an optional non-negative integer: the source
writes params.page || 1 and params.limit || 10, so an absent value and the
value 0 both become the default. -/
def jsOrDefault (o : Option Nat) (d : Nat) : Nat :=
  match o with
  | none => d
  | some v => if v = 0 then d else v

/-- The comparator built in filterAndPaginate.  For ascending order the
source returns aValue > bValue ? 1 : -1 and for descending order
bValue > aValue ? 1 : -1.  It never returns 0: two records with equal
keys are reported as first-argument-smaller. -/
def sortComparator {T K : Type} [LinearOrder K] (key : T → K) (ord : Option SortOrder)
    (a b : T) : Int :=
  if ord = some SortOrder.desc then (if key b > key a then 1 else -1)
  else (if key a > key b then 1 else -1)

/-- Insertion at the leftmost admissible position: x is placed before the
first element y with cmp x y < 0.  This is the position computed by the
binary insertion step of the runtime sort (V8 TimSort): the engine moves
left while comparefn(pivot, element) < 0; because the predicate
cmp x y < 0 is monotone along a run sorted by this comparator, the binary
search lands exactly on this leftmost position. -/
def insertLeft {T : Type} (cmp : T → T → Int) (x : T) : List T → List T
  | [] => [x]
  | y :: ys => if cmp x y < 0 then x :: y :: ys else y :: insertLeft cmp x ys

/-- Model of Array.prototype.sort(cmp) as executed on the data: each
element, in input order, is inserted into the already sorted run at the
position the binary insertion step selects.  The ECMAScript standard only
pins the result down for consistent comparators; the comparator of
filterAndPaginate is inconsistent (it never returns 0), and this
definition reproduces the engine behaviour of placing an element before
earlier elements with an equal key. -/
def jsSort {T : Type} (cmp : T → T → Int) (l : List T) : List T :=
  l.foldl (fun acc x => insertLeft cmp x acc) []

/-- Math.ceil(a / b) for natural a and positive natural b. -/
def jsCeilDiv (a b : Nat) : Nat := (a + b - 1) / b

/-- The search-filter stage of filterAndPaginate: the source keeps only
the records accepted by filterFn, but only when params.search is truthy
(a non-empty string) and a predicate was passed. -/
def applySearchFilter {T K : Type} (data : List T) (params : QueryParams T K)
    (filterFn : Option (T → String → Bool)) : List T :=
  match params.search, filterFn with
  | some s, some f => if s = "" then data else data.filter (fun item => f item s)
  | _, _ => data

/-- The sort stage of filterAndPaginate: sort with the comparator when
sortBy is set, otherwise keep the filtered order. -/
def applySort {T K : Type} [LinearOrder K] (params : QueryParams T K) (l : List T) : List T :=
  match params.sortBy with
  | some key => jsSort (sortComparator key params.sortOrder) l
  | none => l

/-- filterAndPaginate of src/services/api.ts: copy the collection, filter
by the search predicate when a non-empty search string and a predicate
are given, sort in place when sortBy is set, then slice
[(page-1)*limit, page*limit) and report pagination metadata. -/
def filterAndPaginate {T K : Type} [LinearOrder K] (data : List T)
    (params : QueryParams T K) (filterFn : Option (T → String → Bool)) : PageResult T :=
  let sortedData := applySort params (applySearchFilter data params filterFn)
  let page := jsOrDefault params.page 1
  let limit := jsOrDefault params.limit 10
  let startIndex := (page - 1) * limit
  let endIndex := startIndex + limit
  let paginatedData := (sortedData.drop startIndex).take (endIndex - startIndex)
  { data := paginatedData
    pagination :=
      { page := page
        limit := limit
        total := sortedData.length
        totalPages := jsCeilDiv sortedData.length limit } }

/-! Basic facts about the sort model. -/

theorem insertLeft_length {T : Type} (cmp : T → T → Int) (x : T) (l : List T) :
    (insertLeft cmp x l).length = l.length + 1 := by
  induction l with
  | nil => rfl
  | cons y ys ih =>
      simp only [insertLeft]
      split
      · simp
      · simp [ih]

theorem jsSort_foldl_length {T : Type} (cmp : T → T → Int) (l acc : List T) :
    (l.foldl (fun a x => insertLeft cmp x a) acc).length = acc.length + l.length := by
  induction l generalizing acc with
  | nil => simp
  | cons y ys ih =>
      simp only [List.foldl_cons]
      rw [ih, insertLeft_length]
      simp only [List.length_cons]
      omega

theorem jsSort_length {T : Type} (cmp : T → T → Int) (l : List T) :
    (jsSort cmp l).length = l.length := by
  simp [jsSort, jsSort_foldl_length]

theorem insertLeft_mem {T : Type} (cmp : T → T → Int) (x z : T) (l : List T)
    (h : z ∈ insertLeft cmp x l) : z = x ∨ z ∈ l := by
  induction l with
  | nil => simpa [insertLeft] using h
  | cons y ys ih =>
      simp only [insertLeft] at h
      split at h
      · rcases List.mem_cons.mp h with h1 | h1
        · exact Or.inl h1
        · exact Or.inr h1
      · rcases List.mem_cons.mp h with h1 | h1
        · exact Or.inr (by simp [h1])
        · rcases ih h1 with h2 | h2
          · exact Or.inl h2
          · exact Or.inr (by simp [h2])

theorem insertLeft_pairwise {T : Type} (cmp : T → T → Int) (R : T → T → Prop)
    (hT : Transitive R)
    (h1 : ∀ a b, cmp a b < 0 → R a b)
    (h2 : ∀ a b, ¬ cmp a b < 0 → R b a)
    (x : T) (l : List T) (hl : l.Pairwise R) :
    (insertLeft cmp x l).Pairwise R := by
  induction l with
  | nil => simp [insertLeft]
  | cons y ys ih =>
      rcases List.pairwise_cons.mp hl with ⟨hy, hys⟩
      simp only [insertLeft]
      split
      · rename_i hcmp
        refine List.pairwise_cons.mpr ⟨?_, hl⟩
        intro z hz
        rcases List.mem_cons.mp hz with h | h
        · exact h ▸ h1 x y hcmp
        · exact hT (h1 x y hcmp) (hy z h)
      · rename_i hcmp
        refine List.pairwise_cons.mpr ⟨?_, ih hys⟩
        intro z hz
        rcases insertLeft_mem cmp x z ys hz with h | h
        · exact h ▸ h2 x y hcmp
        · exact hy z h

theorem jsSort_foldl_pairwise {T : Type} (cmp : T → T → Int) (R : T → T → Prop)
    (hT : Transitive R)
    (h1 : ∀ a b, cmp a b < 0 → R a b)
    (h2 : ∀ a b, ¬ cmp a b < 0 → R b a)
    (l acc : List T) (hacc : acc.Pairwise R) :
    (l.foldl (fun a x => insertLeft cmp x a) acc).Pairwise R := by
  induction l generalizing acc with
  | nil => simpa using hacc
  | cons y ys ih =>
      simp only [List.foldl_cons]
      exact ih _ (insertLeft_pairwise cmp R hT h1 h2 y acc hacc)

theorem jsSort_pairwise {T : Type} (cmp : T → T → Int) (R : T → T → Prop)
    (hT : Transitive R)
    (h1 : ∀ a b, cmp a b < 0 → R a b)
    (h2 : ∀ a b, ¬ cmp a b < 0 → R b a)
    (l : List T) : (jsSort cmp l).Pairwise R :=
  jsSort_foldl_pairwise cmp R hT h1 h2 l [] (by simp)

theorem jsOrDefault_pos (o : Option Nat) (d : Nat) (hd : 0 < d) : 0 < jsOrDefault o d := by
  cases o with
  | none => simpa [jsOrDefault] using hd
  | some v =>
      simp only [jsOrDefault]
      split
      · exact hd
      · omega

theorem applySort_length {T K : Type} [LinearOrder K] (params : QueryParams T K) (l : List T) :
    (applySort params l).length = l.length := by
  unfold applySort
  cases params.sortBy with
  | none => rfl
  | some key => simp [jsSort_length]

theorem jsCeilDiv_eq_ceil (a b : Nat) (hb : 0 < b) :
    jsCeilDiv a b = Nat.ceil ((a : ℚ) / (b : ℚ)) := by
  have hb0 : (0 : ℚ) < (b : ℚ) := by exact_mod_cast hb
  apply le_antisymm
  · rw [jsCeilDiv, Nat.div_le_iff_le_mul_add_pred hb]
    have h1 : (a : ℚ) ≤ (Nat.ceil ((a : ℚ) / (b : ℚ)) : ℚ) * (b : ℚ) := by
      have h := Nat.le_ceil ((a : ℚ) / (b : ℚ))
      have h2 := mul_le_mul_of_nonneg_right h (le_of_lt hb0)
      rwa [div_mul_cancel₀ _ (ne_of_gt hb0)] at h2
    have h2 : a ≤ Nat.ceil ((a : ℚ) / (b : ℚ)) * b := by exact_mod_cast h1
    have h3 : a ≤ b * Nat.ceil ((a : ℚ) / (b : ℚ)) := by rwa [Nat.mul_comm] at h2
    omega
  · rw [jsCeilDiv]
    apply Nat.ceil_le.mpr
    rw [div_le_iff₀ hb0]
    have h3 := Nat.div_add_mod (a + b - 1) b
    have h4 : (a + b - 1) % b < b := Nat.mod_lt _ hb
    have h5 : a ≤ b * ((a + b - 1) / b) := by omega
    have h6 : a ≤ ((a + b - 1) / b) * b := by rwa [Nat.mul_comm] at h5
    exact_mod_cast h6

theorem jsCeilDiv_mul_ge (a b : Nat) (hb : 0 < b) : a ≤ b * jsCeilDiv a b := by
  rw [jsCeilDiv]
  have h3 := Nat.div_add_mod (a + b - 1) b
  have h4 : (a + b - 1) % b < b := Nat.mod_lt _ hb
  omega

/-- C1: for every collection and every QueryParams, filterAndPaginate
(the list operation of every collection) reports total equal to the
length of the filtered set, totalPages equal to the ceiling of
total / limit, a data slice equal to the half-open window
[(page-1)*limit, page*limit) of the filtered-and-sorted set, and an
empty data array (with no error: the function is total) for every page
greater than totalPages. -/
theorem filterAndPaginate_pagination_correct {T K : Type} [LinearOrder K] (data : List T)
    (params : QueryParams T K) (filterFn : Option (T → String → Bool)) :
    (filterAndPaginate data params filterFn).pagination.total
        = (applySearchFilter data params filterFn).length
    ∧ (filterAndPaginate data params filterFn).pagination.totalPages
        = Nat.ceil (((filterAndPaginate data params filterFn).pagination.total : ℚ)
            / ((filterAndPaginate data params filterFn).pagination.limit : ℚ))
    ∧ (filterAndPaginate data params filterFn).data
        = ((applySort params (applySearchFilter data params filterFn)).take
              ((filterAndPaginate data params filterFn).pagination.page
                * (filterAndPaginate data params filterFn).pagination.limit)).drop
            (((filterAndPaginate data params filterFn).pagination.page - 1)
              * (filterAndPaginate data params filterFn).pagination.limit)
    ∧ ((filterAndPaginate data params filterFn).pagination.page
          > (filterAndPaginate data params filterFn).pagination.totalPages
        → (filterAndPaginate data params filterFn).data = []) := by
  have hlim : 0 < jsOrDefault params.limit 10 := jsOrDefault_pos _ _ (by omega)
  have hpage : 0 < jsOrDefault params.page 1 := jsOrDefault_pos _ _ (by omega)
  simp only [filterAndPaginate]
  set sorted := applySort params (applySearchFilter data params filterFn) with hsorted
  set p := jsOrDefault params.page 1 with hp
  set lim := jsOrDefault params.limit 10 with hlim2
  refine ⟨?_, ?_, ?_, ?_⟩
  · exact applySort_length params _
  · exact jsCeilDiv_eq_ceil sorted.length lim hlim
  · have harith : (p - 1) * lim + lim - (p - 1) * lim = lim := by omega
    rw [harith, List.drop_take]
    have harith2 : p * lim - (p - 1) * lim = lim := by
      have hsucc : p - 1 + 1 = p := Nat.succ_pred_eq_of_pos hpage
      have : p * lim = (p - 1) * lim + lim := by
        conv_lhs => rw [← hsucc]
        rw [Nat.add_mul, Nat.one_mul]
      omega
    rw [harith2]
  · intro hgt
    have h1 : jsCeilDiv sorted.length lim + 1 ≤ p := hgt
    have h2 : sorted.length ≤ lim * jsCeilDiv sorted.length lim :=
      jsCeilDiv_mul_ge sorted.length lim hlim
    have h3 : lim * jsCeilDiv sorted.length lim ≤ lim * (p - 1) :=
      Nat.mul_le_mul_left lim (by omega)
    have h4 : sorted.length ≤ (p - 1) * lim := by
      rw [Nat.mul_comm]
      omega
    rw [List.drop_eq_nil_of_le h4, List.take_nil]

/-- C1 witness: a concrete page past totalPages comes back empty. -/
theorem filterAndPaginate_pagination_correct_witness :
    (filterAndPaginate (K := Nat) [1, 2, 3] { page := some 5 } none).data = [] :=
  (filterAndPaginate_pagination_correct [1, 2, 3] { page := some 5 } none).2.2.2 (by decide)

/-- C2 counterexample: the comparator of filterAndPaginate never returns
0, so the engine places a later record with an equal sort key before the
earlier one: sorting the two equal-keyed records (0,0), (0,1) (key = the
first component) yields them in reversed input order, refuting the
claimed stability of the list operation. -/
theorem filterAndPaginate_sort_ties_reversed_cex :
    ((filterAndPaginate (T := Nat × Nat) (K := Nat) [(0, 0), (0, 1)]
        { sortBy := some (fun r => r.1) } none).data = [(0, 1), (0, 0)])
    ∧ (fun r : Nat × Nat => r.1) (0, 0) = (fun r : Nat × Nat => r.1) (0, 1) :=
  ⟨rfl, rfl⟩

/-- C2 amended: for every collection and every QueryParams with sortBy
set, the list operation's output is sorted by that field per sortOrder
(desc reverses the comparison); however the sort is NOT stable: the
comparator never returns 0, so two records with equal sort keys need not
retain (and in fact reverse) their relative input order. -/
theorem filterAndPaginate_sorted_per_sortOrder {T K : Type} [LinearOrder K] (data : List T)
    (params : QueryParams T K) (filterFn : Option (T → String → Bool)) (key : T → K)
    (hkey : params.sortBy = some key) :
    (params.sortOrder ≠ some SortOrder.desc
      → (filterAndPaginate data params filterFn).data.Pairwise (fun a b => key a ≤ key b))
    ∧ (params.sortOrder = some SortOrder.desc
      → (filterAndPaginate data params filterFn).data.Pairwise (fun a b => key b ≤ key a)) := by
  have hsub : List.Sublist (filterAndPaginate data params filterFn).data
      (applySort params (applySearchFilter data params filterFn)) := by
    simp only [filterAndPaginate]
    exact List.Sublist.trans (List.take_sublist _ _) (List.drop_sublist _ _)
  rw [applySort, hkey] at hsub
  constructor
  · intro hord
    have hsorted : (jsSort (sortComparator key params.sortOrder)
        (applySearchFilter data params filterFn)).Pairwise (fun a b => key a ≤ key b) := by
      apply jsSort_pairwise
      · intro a b c hab hbc
        exact le_trans hab hbc
      · intro a b hab
        simp only [sortComparator, if_neg hord] at hab
        by_contra hcon
        rw [if_pos (lt_of_not_le hcon)] at hab
        omega
      · intro a b hab
        simp only [sortComparator, if_neg hord] at hab
        by_contra hcon
        rw [if_neg (fun hgt => hcon (le_of_lt hgt))] at hab
        omega
    exact hsorted.sublist hsub
  · intro hord
    have hsorted : (jsSort (sortComparator key params.sortOrder)
        (applySearchFilter data params filterFn)).Pairwise (fun a b => key b ≤ key a) := by
      apply jsSort_pairwise
      · intro a b c hab hbc
        exact le_trans hbc hab
      · intro a b hab
        simp only [sortComparator, if_pos hord] at hab
        by_contra hcon
        rw [if_pos (lt_of_not_le hcon)] at hab
        omega
      · intro a b hab
        simp only [sortComparator, if_pos hord] at hab
        by_contra hcon
        rw [if_neg (fun hgt => hcon (le_of_lt hgt))] at hab
        omega
    exact hsorted.sublist hsub

/-- C2 witness: a concrete ascending sort comes out ordered. -/
theorem filterAndPaginate_sorted_per_sortOrder_witness :
    (filterAndPaginate (T := Nat) (K := Nat) [3, 1, 2]
        { sortBy := some (fun x => x) } none).data.Pairwise (fun a b : Nat => a ≤ b) :=
  (filterAndPaginate_sorted_per_sortOrder [3, 1, 2] { sortBy := some (fun x => x) } none
     (fun x => x) rfl).1 (by decide)

/-! ### In-memory CRUD store: users, products, orders -/

/-- User role union type of src/types/api.ts. -/
inductive Role where
  | admin
  | user
  | moderator
deriving DecidableEq, Repr

/-- Order status union type of src/types/api.ts. -/
inductive OrderStatus where
  | pending
  | processing
  | shipped
  | delivered
  | cancelled
deriving DecidableEq, Repr

/-- User record.  Timestamps are the ISO strings produced by
getCurrentTimestamp. -/
structure User where
  id : String
  name : String
  email : String
  avatar : Option String := none
  role : Role
  createdAt : String
  updatedAt : String
deriving DecidableEq, Repr

/-- Product record; price is a JS number holding money, modelled as ℚ. -/
structure Product where
  id : String
  name : String
  description : String
  price : ℚ
  category : String
  stock : Nat
  imageUrl : Option String := none
  createdAt : String
  updatedAt : String
deriving DecidableEq, Repr

/-- Shipping address of src/types/api.ts. -/
structure Address where
  street : String
  city : String
  state : String
  zipCode : String
  country : String
deriving DecidableEq, Repr

/-- Order line item: productId reference, embedded product copy, quantity
and the price snapshot taken at order creation. -/
structure OrderItem where
  id : String
  productId : String
  product : Option Product := none
  quantity : Nat
  price : ℚ
deriving DecidableEq, Repr

/-- Order record with computed total. -/
structure Order where
  id : String
  userId : String
  user : Option User := none
  items : List OrderItem
  total : ℚ
  status : OrderStatus
  shippingAddress : Address
  createdAt : String
  updatedAt : String
deriving DecidableEq, Repr

/-- The in-memory store: the mockUsers, mockProducts and mockOrders
arrays of src/lib/mockData.ts. -/
structure Store where
  users : List User
  products : List Product
  orders : List Order
deriving DecidableEq, Repr

/-- CreateUserRequest of src/types/api.ts. -/
structure CreateUserRequest where
  name : String
  email : String
  role : Option Role := none
deriving DecidableEq, Repr

/-- UpdateUserRequest: every field optional, absent fields untouched. -/
structure UpdateUserRequest where
  name : Option String := none
  email : Option String := none
  role : Option Role := none
deriving DecidableEq, Repr

/-- UpdateProductRequest: every field optional, absent fields untouched. -/
structure UpdateProductRequest where
  name : Option String := none
  description : Option String := none
  price : Option ℚ := none
  category : Option String := none
  stock : Option Nat := none
  imageUrl : Option String := none
deriving DecidableEq, Repr

/-- An entry of CreateOrderRequest.items. -/
structure OrderItemRequest where
  productId : String
  quantity : Nat
deriving DecidableEq, Repr

/-- CreateOrderRequest of src/types/api.ts. -/
structure CreateOrderRequest where
  userId : String
  items : List OrderItemRequest
  shippingAddress : Address
deriving DecidableEq, Repr

/-- userApi.createUser: build the new user (role defaulting to user,
fresh id and timestamps) and push it onto the users array.  The fresh id
produced by generateId and the current timestamp are passed explicitly.
The 5 percent simulated-failure path is the injectable fault-injection
simulation and is modelled as disabled. -/
def createUser (userData : CreateUserRequest) (newId now : String) (s : Store) :
    User × Store :=
  let newUser : User :=
    { id := newId
      name := userData.name
      email := userData.email
      avatar := none
      role := userData.role.getD Role.user
      createdAt := now
      updatedAt := now }
  (newUser, { s with users := s.users ++ [newUser] })

/-- userApi.updateUser: find the user by id (NotFound when absent), merge
the partial fields over the existing record, refresh updatedAt, and write
the merged record back into the same slot. -/
def updateUser (id : String) (userData : UpdateUserRequest) (now : String) (s : Store) :
    Except String User × Store :=
  match s.users.findIdx? (fun u => u.id == id) with
  | none => (Except.error "User not found", s)
  | some userIndex =>
      match s.users[userIndex]? with
      | none => (Except.error "User not found", s)
      | some u =>
          let updatedUser : User :=
            { u with
              name := userData.name.getD u.name
              email := userData.email.getD u.email
              role := userData.role.getD u.role
              updatedAt := now }
          (Except.ok updatedUser, { s with users := s.users.set userIndex updatedUser })

/-- productApi.updateProduct: same merge-and-write-back shape as
updateUser, over the products array. -/
def updateProduct (id : String) (productData : UpdateProductRequest) (now : String)
    (s : Store) : Except String Product × Store :=
  match s.products.findIdx? (fun p => p.id == id) with
  | none => (Except.error "Product not found", s)
  | some productIndex =>
      match s.products[productIndex]? with
      | none => (Except.error "Product not found", s)
      | some p =>
          let updatedProduct : Product :=
            { p with
              name := productData.name.getD p.name
              description := productData.description.getD p.description
              price := productData.price.getD p.price
              category := productData.category.getD p.category
              stock := productData.stock.getD p.stock
              imageUrl := match productData.imageUrl with
                          | some v => some v
                          | none => p.imageUrl
              updatedAt := now }
          (Except.ok updatedProduct,
           { s with products := s.products.set productIndex updatedProduct })

/-- The items.map body of orderApi.createOrder: walk the requested line
items left to right, fail at the first productId absent from the
products array, and otherwise build an OrderItem carrying the product
and its current price as the snapshot.  k numbers the generateId calls. -/
def buildItems (products : List Product) (itemId : Nat → String) :
    List OrderItemRequest → Nat → Except String (List OrderItem)
  | [], _ => Except.ok []
  | it :: rest, k =>
      match products.find? (fun p => p.id == it.productId) with
      | none => Except.error ("Product with ID " ++ it.productId ++ " not found")
      | some p =>
          match buildItems products itemId rest (k + 1) with
          | Except.error e => Except.error e
          | Except.ok tail =>
              Except.ok
                ({ id := itemId k
                   productId := it.productId
                   product := some p
                   quantity := it.quantity
                   price := p.price } :: tail)

/-- The running total accumulated by createOrder: the sum of
price * quantity over the built items. -/
def orderItemsTotal (items : List OrderItem) : ℚ :=
  (items.map (fun it => it.price * (it.quantity : ℚ))).sum

/-- orderApi.createOrder: build the items (failing on a missing product),
look up the user (failing with NotFound), then push the new pending
order carrying the computed total.  On any failure the store comes back
unchanged, matching the source where the push only happens after every
check passed. -/
def createOrder (orderData : CreateOrderRequest) (itemId : Nat → String)
    (orderId now : String) (s : Store) : Except String Order × Store :=
  match buildItems s.products itemId orderData.items 0 with
  | Except.error m => (Except.error m, s)
  | Except.ok items =>
      match s.users.find? (fun u => u.id == orderData.userId) with
      | none => (Except.error "User not found", s)
      | some user =>
          let newOrder : Order :=
            { id := orderId
              userId := orderData.userId
              user := some user
              items := items
              total := orderItemsTotal items
              status := OrderStatus.pending
              shippingAddress := orderData.shippingAddress
              createdAt := now
              updatedAt := now }
          (Except.ok newOrder, { s with orders := s.orders ++ [newOrder] })

/-- The price the store currently lists for a product id (0 when absent;
only used under hypotheses that make the product present). -/
def productPriceIn (products : List Product) (pid : String) : ℚ :=
  match products.find? (fun p => p.id == pid) with
  | some p => p.price
  | none => 0

theorem findIdx?_append_singleton {α : Type} (p : α → Bool) (l : List α) (x : α)
    (h : ∀ y ∈ l, p y = false) (hx : p x = true) :
    List.findIdx? p (l ++ [x]) = some l.length := by
  induction l with
  | nil => simp [List.findIdx?, hx]
  | cons a as ih =>
      have ha := h a (by simp)
      simp [List.findIdx?_cons, ha, ih (fun y hy => h y (by simp [hy]))]

theorem buildItems_ok_spec (products : List Product) (itemId : Nat → String)
    (l : List OrderItemRequest) (k : Nat) (items : List OrderItem)
    (h : buildItems products itemId l k = Except.ok items) :
    items.map (fun it => it.price) = l.map (fun it => productPriceIn products it.productId)
    ∧ orderItemsTotal items
        = (l.map (fun it => productPriceIn products it.productId * (it.quantity : ℚ))).sum
    ∧ ∀ it ∈ l, products.find? (fun p => p.id == it.productId) ≠ none := by
  induction l generalizing k items with
  | nil =>
      simp only [buildItems, Except.ok.injEq] at h
      subst h
      simp [orderItemsTotal]
  | cons it rest ih =>
      simp only [buildItems] at h
      cases hf : products.find? (fun p => p.id == it.productId) with
      | none => rw [hf] at h; exact absurd h (by simp)
      | some p =>
          rw [hf] at h
          cases hb : buildItems products itemId rest (k + 1) with
          | error e => rw [hb] at h; exact absurd h (by simp)
          | ok tail =>
              rw [hb] at h
              simp only [Except.ok.injEq] at h
              subst h
              obtain ⟨ih1, ih2, ih3⟩ := ih (k + 1) tail hb
              refine ⟨?_, ?_, ?_⟩
              · simp [ih1, productPriceIn, hf]
              · simp only [orderItemsTotal, List.map_cons, List.sum_cons] at *
                rw [ih2]
                simp [productPriceIn, hf]
              · intro j hj
                rcases List.mem_cons.mp hj with hj | hj
                · subst hj; simp [hf]
                · exact ih3 j hj

theorem buildItems_error_mem (products : List Product) (itemId : Nat → String)
    (l : List OrderItemRequest) (k : Nat) (e : String)
    (h : buildItems products itemId l k = Except.error e) :
    ∃ it ∈ l, e = "Product with ID " ++ it.productId ++ " not found" := by
  induction l generalizing k with
  | nil => exact absurd h (by simp [buildItems])
  | cons it rest ih =>
      simp only [buildItems] at h
      cases hf : products.find? (fun p => p.id == it.productId) with
      | none =>
          rw [hf] at h
          simp only [Except.error.injEq] at h
          exact ⟨it, by simp, h.symm⟩
      | some p =>
          rw [hf] at h
          cases hb : buildItems products itemId rest (k + 1) with
          | error e2 =>
              rw [hb] at h
              simp only [Except.error.injEq] at h
              obtain ⟨j, hj, hje⟩ := ih (k + 1) (h ▸ hb)
              exact ⟨j, by simp [hj], hje⟩
          | ok tail => rw [hb] at h; exact absurd h (by simp)

theorem updateProduct_preserves_orders (id : String) (upd : UpdateProductRequest)
    (now : String) (s : Store) : ((updateProduct id upd now s).2).orders = s.orders := by
  unfold updateProduct
  split
  · rfl
  · split
    · rfl
    · rfl

/-- C3: every order built by createOrder carries a total equal to the sum
of the referenced products' store prices at creation time weighted by the
quantities, the items store those prices as snapshots, the order lands in
the store, and a later updateProduct (price change included) leaves the
orders collection, and hence every stored total and item price,
unchanged. -/
theorem createOrder_price_snapshot (orderData : CreateOrderRequest) (itemId : Nat → String)
    (orderId now : String) (s : Store) (o : Order) (s2 : Store)
    (h : createOrder orderData itemId orderId now s = (Except.ok o, s2)) :
    o.total = (orderData.items.map (fun it =>
        productPriceIn s.products it.productId * (it.quantity : ℚ))).sum
    ∧ o.items.map (fun it => it.price)
        = orderData.items.map (fun it => productPriceIn s.products it.productId)
    ∧ o ∈ s2.orders
    ∧ ∀ (pid : String) (upd : UpdateProductRequest) (now2 : String),
        ((updateProduct pid upd now2 s2).2).orders = s2.orders := by
  unfold createOrder at h
  cases hb : buildItems s.products itemId orderData.items 0 with
  | error m => rw [hb] at h; exact absurd h (by simp)
  | ok items =>
      rw [hb] at h
      cases hu : s.users.find? (fun u => u.id == orderData.userId) with
      | none => rw [hu] at h; exact absurd h (by simp)
      | some user =>
          rw [hu] at h
          simp only [Prod.mk.injEq, Except.ok.injEq] at h
          obtain ⟨ho, hs⟩ := h
          obtain ⟨hprices, htotal, _⟩ := buildItems_ok_spec s.products itemId
            orderData.items 0 items hb
          refine ⟨?_, ?_, ?_, ?_⟩
          · rw [← ho]; exact htotal
          · rw [← ho]; exact hprices
          · rw [← hs, ← ho]; simp
          · intro pid upd now2; exact updateProduct_preserves_orders pid upd now2 s2

def c3ItemId : Nat → String := fun n => "item" ++ toString n

def c3Address : Address :=
  { street := "1 Main St", city := "Pune", state := "MH", zipCode := "411001", country := "IN" }

def c3User : User :=
  { id := "u1", name := "Al", email := "al@example.com", role := Role.user,
    createdAt := "t0", updatedAt := "t0" }

def c3Product : Product :=
  { id := "p1", name := "Widget", description := "A widget", price := 10, category := "home",
    stock := 5, createdAt := "t0", updatedAt := "t0" }

def c3Store : Store := { users := [c3User], products := [c3Product], orders := [] }

def c3Req : CreateOrderRequest :=
  { userId := "u1", items := [{ productId := "p1", quantity := 2 }],
    shippingAddress := c3Address }

def c3Order : Order :=
  { id := "o1", userId := "u1", user := some c3User,
    items := [{ id := "item0", productId := "p1", product := some c3Product,
                quantity := 2, price := 10 }],
    total := orderItemsTotal [{ id := "item0", productId := "p1", product := some c3Product,
                                quantity := 2, price := 10 }],
    status := OrderStatus.pending, shippingAddress := c3Address,
    createdAt := "t1", updatedAt := "t1" }

def c3StoreAfter : Store := { c3Store with orders := [c3Order] }

/-- C3 witness: a concrete one-item order gets total 10 * 2 and survives
a product price update untouched. -/
theorem createOrder_price_snapshot_witness :
    createOrder c3Req c3ItemId "o1" "t1" c3Store = (Except.ok c3Order, c3StoreAfter)
    ∧ c3Order.total = (c3Req.items.map (fun it =>
        productPriceIn c3Store.products it.productId * (it.quantity : ℚ))).sum
    ∧ ((updateProduct "p1" { price := some 999 } "t2" c3StoreAfter).2).orders
        = c3StoreAfter.orders := by
  have h : createOrder c3Req c3ItemId "o1" "t1" c3Store = (Except.ok c3Order, c3StoreAfter) :=
    rfl
  have hspec := createOrder_price_snapshot c3Req c3ItemId "o1" "t1" c3Store c3Order
    c3StoreAfter h
  exact ⟨h, hspec.1, hspec.2.2.2 "p1" { price := some 999 } "t2"⟩

/-- C9: when some requested productId or the userId is absent from the
store, createOrder fails with a not-found error and hands the store back
unchanged: no partial order is pushed. -/
theorem createOrder_notfound_rolls_back (orderData : CreateOrderRequest)
    (itemId : Nat → String) (orderId now : String) (s : Store)
    (h : (∃ it ∈ orderData.items, s.products.find? (fun p => p.id == it.productId) = none)
         ∨ s.users.find? (fun u => u.id == orderData.userId) = none) :
    ∃ m, createOrder orderData itemId orderId now s = (Except.error m, s)
      ∧ (m = "User not found"
         ∨ ∃ it ∈ orderData.items, m = "Product with ID " ++ it.productId ++ " not found") := by
  cases hb : buildItems s.products itemId orderData.items 0 with
  | error m =>
      refine ⟨m, ?_, Or.inr (buildItems_error_mem s.products itemId orderData.items 0 m hb)⟩
      simp [createOrder, hb]
  | ok items =>
      have hfound := (buildItems_ok_spec s.products itemId orderData.items 0 items hb).2.2
      rcases h with hmiss | huser
      · obtain ⟨it, hit, hnone⟩ := hmiss
        exact absurd hnone (hfound it hit)
      · exact ⟨"User not found", by simp [createOrder, hb, huser], Or.inl rfl⟩

def c9Store : Store := { users := [], products := [c3Product], orders := [] }

/-- C9 witness: ordering for an absent user fails and leaves the store
as it was. -/
theorem createOrder_notfound_rolls_back_witness :
    ∃ m, createOrder c3Req c3ItemId "o1" "t1" c9Store = (Except.error m, c9Store)
      ∧ (m = "User not found"
         ∨ ∃ it ∈ c3Req.items, m = "Product with ID " ++ it.productId ++ " not found") :=
  createOrder_notfound_rolls_back c3Req c3ItemId "o1" "t1" c9Store (Or.inr rfl)

theorem updateUser_found_noop (s : Store) (i : Nat) (u : User) (now2 : String)
    (hidx : s.users.findIdx? (fun v => v.id == u.id) = some i)
    (hget : s.users[i]? = some u) :
    (updateUser u.id {} now2 s).1 = Except.ok { u with updatedAt := now2 } := by
  simp [updateUser, hidx, hget]

/-- C8: updating a freshly created record with the empty partial object
returns a record that agrees with the created record on every field and
differs only in updatedAt. -/
theorem updateUser_noop_preserves_fields (X : CreateUserRequest) (newId now now2 : String)
    (s : Store) (hfresh : ∀ v ∈ s.users, v.id ≠ newId) :
    (updateUser (createUser X newId now s).1.id {} now2 (createUser X newId now s).2).1
      = Except.ok { (createUser X newId now s).1 with updatedAt := now2 } := by
  have hid : (createUser X newId now s).1.id = newId := rfl
  have husers : (createUser X newId now s).2.users
      = s.users ++ [(createUser X newId now s).1] := rfl
  refine updateUser_found_noop _ s.users.length _ now2 ?_ ?_
  · rw [husers]
    have hlen : s.users.length = (s.users).length := rfl
    apply findIdx?_append_singleton
    · intro y hy
      rw [hid]
      exact beq_eq_false_iff_ne.mpr (hfresh y hy)
    · simp
  · rw [husers]
    exact List.getElem?_concat_length s.users _

def c8Req : CreateUserRequest := { name := "Al", email := "al@example.com" }

def c8Store : Store := { users := [], products := [], orders := [] }

/-- C8 witness: the round trip on a concrete store. -/
theorem updateUser_noop_preserves_fields_witness :
    (updateUser (createUser c8Req "u1" "t0" c8Store).1.id {} "t1"
        (createUser c8Req "u1" "t0" c8Store).2).1
      = Except.ok { (createUser c8Req "u1" "t0" c8Store).1 with updatedAt := "t1" } :=
  updateUser_noop_preserves_fields c8Req "u1" "t0" "t1" c8Store (by decide)

/-! ### Landing page generation pipeline -/

/-- ProductClassification category union of landingPageGenerator types. -/
inductive ProductCategory where
  | electronics
  | fashion
  | home
  | beauty
  | sports
  | books
  | other
deriving DecidableEq, Repr

/-- Target audience union type. -/
inductive TargetAudience where
  | men
  | women
  | unisex
  | kids
  | general
deriving DecidableEq, Repr

/-- Price range union type (mid-range spelled midRange). -/
inductive PriceRange where
  | budget
  | midRange
  | premium
  | luxury
deriving DecidableEq, Repr

/-- Theme style union type. -/
inductive ThemeStyle where
  | modern
  | classic
  | minimalist
  | bold
  | elegant
deriving DecidableEq, Repr

/-- Urgency level union type. -/
inductive UrgencyLevel where
  | low
  | medium
  | high
deriving DecidableEq, Repr

/-- ProductInfo extracted by the scraping services. -/
structure ProductInfo where
  name : String
  description : String
  price : ℚ
  originalPrice : Option ℚ := none
  images : List String
  category : String
  brand : Option String := none
  features : List String
  specifications : List (String × String) := []
  rating : Option ℚ := none
  reviews : Option Nat := none
deriving DecidableEq, Repr

/-- ProductClassification returned by the classification stage. -/
structure ProductClassification where
  category : ProductCategory
  subcategory : String
  targetAudience : TargetAudience
  priceRange : PriceRange
deriving DecidableEq, Repr

/-- Colour palette of a DesignTheme. -/
structure ColorPalette where
  primary : String
  secondary : String
  accent : String
  background : String
  text : String
  textLight : String
deriving DecidableEq, Repr

/-- Font pairing of a DesignTheme. -/
structure FontPairing where
  heading : String
  body : String
  accent : String
deriving DecidableEq, Repr

/-- DesignTheme produced by the design stage. -/
structure DesignTheme where
  name : String
  colorPalette : ColorPalette
  fonts : FontPairing
  style : ThemeStyle
deriving DecidableEq, Repr

/-- A testimonial of GeneratedContent. -/
structure Testimonial where
  name : String
  rating : Nat
  text : String
  avatar : Option String := none
  verified : Bool
deriving DecidableEq, Repr

/-- An FAQ entry of GeneratedContent. -/
structure FaqItem where
  question : String
  answer : String
deriving DecidableEq, Repr

/-- GeneratedContent produced by the content stage. -/
structure GeneratedContent where
  headline : String
  subheadline : String
  description : String
  benefits : List String
  upsellCopy : String
  urgencyText : String
  ctaText : String
  testimonials : List Testimonial
  faq : List FaqItem
deriving DecidableEq, Repr

/-- ProcessedImage produced by the image stage. -/
structure ProcessedImage where
  original : String
  backgroundRemoved : String
  cloudinaryUrl : String
  optimizedUrl : String
  thumbnailUrl : String
deriving DecidableEq, Repr

/-- CountdownTimer; the Date endTime is modelled as epoch milliseconds. -/
structure CountdownTimer where
  endTime : Nat
  title : String
  urgencyLevel : UrgencyLevel
deriving DecidableEq, Repr

/-- A single per-field validation rule of the COD form configuration. -/
structure ValidationRule where
  required : Bool
  minLength : Option Nat := none
  pattern : Option String := none
  min : Option Nat := none
  max : Option Nat := none
deriving DecidableEq, Repr

/-- The COD form configuration built by createCODForm. -/
structure CODFormConfig where
  enabled : Bool
  fields : List String
  validationRules : List (String × ValidationRule)
deriving DecidableEq, Repr

/-- The aggregate result of a successful pipeline run. -/
structure LandingPageData where
  productInfo : ProductInfo
  classification : ProductClassification
  theme : DesignTheme
  content : GeneratedContent
  images : List ProcessedImage
  countdown : CountdownTimer
  codForm : CODFormConfig
deriving DecidableEq, Repr

/-- GenerationProgress event delivered to the progress callback. -/
structure GenerationProgress where
  step : String
  progress : Nat
  message : String
  completed : Bool
  error : Option String := none
deriving DecidableEq, Repr

/-- Customizations of GenerateLandingPageRequest. -/
structure Customizations where
  colorPreference : Option String := none
  stylePreference : Option String := none
  targetAudience : Option String := none
  urgencyLevel : Option UrgencyLevel := none
  includeCountdown : Option Bool := none
  countdownHours : Option Nat := none
deriving DecidableEq, Repr

/-- GenerateLandingPageRequest: the product URL plus customizations. -/
structure GenerateLandingPageRequest where
  productUrl : String
  customizations : Option Customizations := none
deriving DecidableEq, Repr

/-- The outcomes of every external call a single pipeline run can make,
plus the ambient clock, passed in explicitly: browseAi is the result of
browseAiService.scrapeProductPage (which already contains its own
internal retry/fallback behaviour), serpApi the result of
serpApiService.extractProductInfo, the three chat fields the raw string
replies of groqService.chatCompletion, the three parse fields the
JSON.parse-and-shape-check attempts on a reply, and processImages the
result of imageProcessingService.processProductImages, which never
throws because it catches every per-image failure. -/
structure PipelineEnv where
  browseAi : Except String ProductInfo
  serpApi : Except String ProductInfo
  classifyChat : Except String String
  themeChat : Except String String
  contentChat : Except String String
  parseClassification : String → Option ProductClassification
  parseTheme : String → Option DesignTheme
  parseContent : String → Option GeneratedContent
  processImages : List String → List ProcessedImage
  nowMs : Nat

/-- The fallback classification of groqService.classifyProduct: default
category, subcategory and audience, and a price range bucketed from the
already-known product price. -/
def fallbackClassification (productInfo : ProductInfo) : ProductClassification :=
  { category := ProductCategory.other
    subcategory := "general"
    targetAudience := TargetAudience.general
    priceRange :=
      if productInfo.price < 50 then PriceRange.budget
      else if productInfo.price < 200 then PriceRange.midRange
      else PriceRange.premium }

/-- The fallback theme of groqService.generateDesignTheme. -/
def fallbackTheme : DesignTheme :=
  { name := "Default Theme"
    colorPalette :=
      { primary := "#3B82F6", secondary := "#1E40AF", accent := "#F59E0B",
        background := "#FFFFFF", text := "#1F2937", textLight := "#6B7280" }
    fonts := { heading := "Inter", body := "Inter", accent := "Inter" }
    style := ThemeStyle.modern }

/-- The fallback content of groqService.generateContent. -/
def fallbackContent (productInfo : ProductInfo) : GeneratedContent :=
  { headline := "Amazing " ++ productInfo.name
    subheadline := "Get yours today with fast delivery!"
    description := productInfo.description
    benefits := ["High Quality", "Fast Shipping", "Great Value", "Customer Support"]
    upsellCopy := "Limited time offer - get yours now!"
    urgencyText := "Only few left in stock!"
    ctaText := "Order Now"
    testimonials :=
      [{ name := "John D.", rating := 5, text := "Great product!", verified := true },
       { name := "Sarah M.", rating := 5, text := "Highly recommend!", verified := true },
       { name := "Mike R.", rating := 4, text := "Good value for money.", verified := true }]
    faq :=
      [{ question := "How long is shipping?", answer := "3-5 business days." },
       { question := "What is your return policy?",
         answer := "30-day money back guarantee." }] }

/-- groqService.classifyProduct: ask the LLM, then try to JSON-parse the
reply; a reply that fails to parse yields the deterministic fallback
classification instead of an error.  Only a failed chat call itself
propagates as an error. -/
def classifyProduct (chat : Except String String)
    (parse : String → Option ProductClassification) (productInfo : ProductInfo) :
    Except String ProductClassification :=
  match chat with
  | Except.error e => Except.error e
  | Except.ok reply =>
      match parse reply with
      | some c => Except.ok c
      | none => Except.ok (fallbackClassification productInfo)

/-- groqService.generateDesignTheme with the same parse-or-fallback shape. -/
def generateDesignTheme (chat : Except String String)
    (parse : String → Option DesignTheme) : Except String DesignTheme :=
  match chat with
  | Except.error e => Except.error e
  | Except.ok reply =>
      match parse reply with
      | some t => Except.ok t
      | none => Except.ok fallbackTheme

/-- groqService.generateContent with the same parse-or-fallback shape. -/
def generateContent (chat : Except String String)
    (parse : String → Option GeneratedContent) (productInfo : ProductInfo) :
    Except String GeneratedContent :=
  match chat with
  | Except.error e => Except.error e
  | Except.ok reply =>
      match parse reply with
      | some c => Except.ok c
      | none => Except.ok (fallbackContent productInfo)

/-- LandingPageGenerator.extractProductInfo: try the primary scraper and
on any failure fall back to the secondary search-based extractor. -/
def extractProductInfoStep (env : PipelineEnv) : Except String ProductInfo :=
  match env.browseAi with
  | Except.ok info => Except.ok info
  | Except.error _ => env.serpApi

/-- LandingPageGenerator.createCountdownTimer: pure computation of the
end time (now plus the customization hours, defaulting to 24) and a
title selected from the fixed urgency table. -/
def createCountdownTimer (customizations : Option Customizations) (nowMs : Nat) :
    CountdownTimer :=
  let hours := jsOrDefault (customizations.bind (fun c => c.countdownHours)) 24
  let urgencyLevel := (customizations.bind (fun c => c.urgencyLevel)).getD UrgencyLevel.medium
  { endTime := nowMs + hours * 3600000
    title :=
      match urgencyLevel with
      | UrgencyLevel.low => "Special Offer Ends Soon"
      | UrgencyLevel.medium => "Limited Time Offer"
      | UrgencyLevel.high => "FLASH SALE - Ends Today!"
    urgencyLevel := urgencyLevel }

/-- LandingPageGenerator.createCODForm: the fixed field list and
validation rule table. -/
def createCODForm : CODFormConfig :=
  { enabled := true
    fields := ["name", "phone", "email", "address", "city", "state", "pincode", "quantity"]
    validationRules :=
      [("name", { required := true, minLength := some 2 }),
       ("phone", { required := true, pattern := some "^[0-9]{10}$" }),
       ("email", { required := false, pattern := some "^[^\\s@]+@[^\\s@]+\\.[^\\s@]+$" }),
       ("address", { required := true, minLength := some 10 }),
       ("city", { required := true, minLength := some 2 }),
       ("state", { required := true, minLength := some 2 }),
       ("pincode", { required := true, pattern := some "^[0-9]{6}$" }),
       ("quantity", { required := true, min := some 1, max := some 10 })] }

/-- LandingPageGenerator.updateProgress: the event handed to the
progress callback; completed is set exactly when progress is 100. -/
def updateProgressEvent (step : String) (progress : Nat) (message : String)
    (error : Option String := none) : GenerationProgress :=
  { step := step
    progress := progress
    message := message
    completed := progress == 100
    error := error }

/-- The error event reported by the catch block of generateLandingPage. -/
def errorEvent (e : String) : GenerationProgress :=
  updateProgressEvent "error" 0 "Generation failed" (some e)

/-- The fixed starting(0) event. -/
def startEvent : GenerationProgress :=
  updateProgressEvent "starting" 0 "Starting landing page generation..."

/-- The fixed extracting(10) event. -/
def extractEvent : GenerationProgress :=
  updateProgressEvent "extracting" 10 "Extracting product information from URL..."

/-- The fixed classifying(25) event. -/
def classifyEvent : GenerationProgress :=
  updateProgressEvent "classifying" 25 "Classifying product type and target audience..."

/-- The fixed designing(40) event. -/
def designEvent : GenerationProgress :=
  updateProgressEvent "designing" 40 "Generating design theme and color palette..."

/-- The fixed content(55) event. -/
def contentEvent : GenerationProgress :=
  updateProgressEvent "content" 55 "Generating persuasive content and copy..."

/-- The fixed images(70) event. -/
def imagesEvent : GenerationProgress :=
  updateProgressEvent "images" 70 "Processing product images..."

/-- The fixed countdown(85) event. -/
def countdownEvent : GenerationProgress :=
  updateProgressEvent "countdown" 85 "Setting up countdown timer..."

/-- The fixed form(95) event. -/
def formEvent : GenerationProgress :=
  updateProgressEvent "form" 95 "Configuring COD form..."

/-- The fixed completed(100) event. -/
def completedEvent : GenerationProgress :=
  updateProgressEvent "completed" 100 "Landing page generated successfully!"

/-- LandingPageGenerator.generateLandingPage: the linear pipeline.  Each
stage reports a progress event before running; any stage failure is
caught, reported as an error event with progress 0, and rethrown
(modelled as the error result).  The function returns the pipeline
outcome together with the ordered list of progress events delivered to
the callback. -/
def generateLandingPage (env : PipelineEnv) (request : GenerateLandingPageRequest) :
    Except String LandingPageData × List GenerationProgress :=
  match extractProductInfoStep env with
  | Except.error e => (Except.error e, [startEvent, extractEvent, errorEvent e])
  | Except.ok productInfo =>
      match classifyProduct env.classifyChat env.parseClassification productInfo with
      | Except.error e =>
          (Except.error e, [startEvent, extractEvent, classifyEvent, errorEvent e])
      | Except.ok classification =>
          match generateDesignTheme env.themeChat env.parseTheme with
          | Except.error e =>
              (Except.error e,
               [startEvent, extractEvent, classifyEvent, designEvent, errorEvent e])
          | Except.ok theme =>
              match generateContent env.contentChat env.parseContent productInfo with
              | Except.error e =>
                  (Except.error e,
                   [startEvent, extractEvent, classifyEvent, designEvent, contentEvent,
                    errorEvent e])
              | Except.ok content =>
                  (Except.ok
                      { productInfo := productInfo
                        classification := classification
                        theme := theme
                        content := content
                        images := env.processImages productInfo.images
                        countdown := createCountdownTimer request.customizations env.nowMs
                        codForm := createCODForm },
                   [startEvent, extractEvent, classifyEvent, designEvent, contentEvent,
                    imagesEvent, countdownEvent, formEvent, completedEvent])

/-! ### Pipeline claims -/

/-- C4: when the primary scraper fails, extraction falls back to the
secondary search-based extractor; if both fail the whole pipeline fails
with the secondary error, and if the fallback succeeds (and the LLM chat
calls of the later stages return replies, parseable or not) the run
still ends at the completed(100) event with a non-null result. -/
theorem generateLandingPage_extraction_fallback (env : PipelineEnv)
    (request : GenerateLandingPageRequest) (eb : String)
    (hb : env.browseAi = Except.error eb) :
    extractProductInfoStep env = env.serpApi
    ∧ (∀ es, env.serpApi = Except.error es →
        (generateLandingPage env request).1 = Except.error es)
    ∧ (∀ p rc rt rg, env.serpApi = Except.ok p → env.classifyChat = Except.ok rc →
        env.themeChat = Except.ok rt → env.contentChat = Except.ok rg →
        ∃ d, (generateLandingPage env request).1 = Except.ok d
          ∧ ∃ ev, (generateLandingPage env request).2.getLast? = some ev
              ∧ ev.step = "completed" ∧ ev.progress = 100 ∧ ev.completed = true) := by
  have hstep : extractProductInfoStep env = env.serpApi := by
    simp [extractProductInfoStep, hb]
  refine ⟨hstep, ?_, ?_⟩
  · intro es hes
    have hx : extractProductInfoStep env = Except.error es := by rw [hstep, hes]
    simp [generateLandingPage, hx]
  · intro p rc rt rg hp hc ht hg
    have hx : extractProductInfoStep env = Except.ok p := by rw [hstep, hp]
    have hcl : ∃ c, classifyProduct env.classifyChat env.parseClassification p
        = Except.ok c := by
      simp only [classifyProduct, hc]
      cases env.parseClassification rc <;> exact ⟨_, rfl⟩
    obtain ⟨c, hcl⟩ := hcl
    have htm : ∃ t, generateDesignTheme env.themeChat env.parseTheme = Except.ok t := by
      simp only [generateDesignTheme, ht]
      cases env.parseTheme rt <;> exact ⟨_, rfl⟩
    obtain ⟨t, htm⟩ := htm
    have hct : ∃ g, generateContent env.contentChat env.parseContent p = Except.ok g := by
      simp only [generateContent, hg]
      cases env.parseContent rg <;> exact ⟨_, rfl⟩
    obtain ⟨g, hct⟩ := hct
    have h2 : (generateLandingPage env request).2
        = [startEvent, extractEvent, classifyEvent, designEvent, contentEvent,
           imagesEvent, countdownEvent, formEvent, completedEvent] := by
      simp [generateLandingPage, hx, hcl, htm, hct]
    have h1 : ∃ d, (generateLandingPage env request).1 = Except.ok d := by
      simp only [generateLandingPage, hx, hcl, htm, hct]
      exact ⟨_, rfl⟩
    obtain ⟨d, h1⟩ := h1
    refine ⟨d, h1, completedEvent, ?_, rfl, rfl, rfl⟩
    rw [h2]
    rfl

def c4Info : ProductInfo :=
  { name := "Widget", description := "A widget", price := 99, images := ["img1"],
    category := "home", features := [] }

def c4Env : PipelineEnv :=
  { browseAi := Except.error "Browse AI task failed"
    serpApi := Except.ok c4Info
    classifyChat := Except.ok "not json"
    themeChat := Except.ok "not json"
    contentChat := Except.ok "not json"
    parseClassification := fun _ => none
    parseTheme := fun _ => none
    parseContent := fun _ => none
    processImages := fun urls => urls.map (fun u =>
      { original := u, backgroundRemoved := u, cloudinaryUrl := u,
        optimizedUrl := u, thumbnailUrl := u })
    nowMs := 0 }

def c4Req : GenerateLandingPageRequest := { productUrl := "https://www.amazon.in/dp/XYZ" }

/-- C4 witness: a concrete run whose primary scraper failed still
completes at 100 with a result. -/
theorem generateLandingPage_extraction_fallback_witness :
    ∃ d, (generateLandingPage c4Env c4Req).1 = Except.ok d
      ∧ ∃ ev, (generateLandingPage c4Env c4Req).2.getLast? = some ev
          ∧ ev.step = "completed" ∧ ev.progress = 100 ∧ ev.completed = true :=
  (generateLandingPage_extraction_fallback c4Env c4Req "Browse AI task failed" rfl).2.2
    c4Info "not json" "not json" "not json" rfl rfl rfl rfl

theorem progress_spec_of_error_run (env : PipelineEnv)
    (request : GenerateLandingPageRequest) (e0 : String) (pre : List GenerationProgress)
    (hrun : generateLandingPage env request = (Except.error e0, pre ++ [errorEvent e0]))
    (hpre : ∀ ev ∈ pre, ev.progress ≤ 100 ∧ (ev.completed = true ↔ ev.progress = 100))
    (hchain : List.Chain' (fun a b => a < b) (pre.map (fun ev => ev.progress))) :
    (∀ ev ∈ (generateLandingPage env request).2,
        ev.progress ≤ 100 ∧ (ev.completed = true ↔ ev.progress = 100))
    ∧ (∀ d, (generateLandingPage env request).1 = Except.ok d →
        List.Chain' (fun a b => a < b)
          (((generateLandingPage env request).2).map (fun ev => ev.progress)))
    ∧ (∀ e, (generateLandingPage env request).1 = Except.error e →
        ∃ pre2, (generateLandingPage env request).2 = pre2 ++ [errorEvent e]
          ∧ List.Chain' (fun a b => a < b) (pre2.map (fun ev => ev.progress))
          ∧ (errorEvent e).progress = 0) := by
  rw [hrun]
  refine ⟨?_, ?_, ?_⟩
  · intro ev hev
    rcases List.mem_append.mp hev with h | h
    · exact hpre ev h
    · rcases List.mem_singleton.mp h with rfl
      exact ⟨by simp [errorEvent, updateProgressEvent], by simp [errorEvent, updateProgressEvent]⟩
  · intro d hd
    exact absurd hd (by simp)
  · intro e he
    simp only [Except.error.injEq] at he
    subst he
    exact ⟨pre, rfl, hchain, rfl⟩

/-- C5 counterexample: a run in which both extractors fail delivers the
progress sequence 0, 10, 0 (the trailing error event resets progress to
0), which is not monotonically non-decreasing, refuting the claim for
runs that end in failure. -/
theorem generateLandingPage_progress_not_monotone_cex :
    ¬ List.Chain' (fun a b => a ≤ b)
        (((generateLandingPage
            { browseAi := Except.error "Browse AI task failed"
              serpApi := Except.error "Failed to extract product information"
              classifyChat := Except.ok ""
              themeChat := Except.ok ""
              contentChat := Except.ok ""
              parseClassification := fun _ => none
              parseTheme := fun _ => none
              parseContent := fun _ => none
              processImages := fun _ => []
              nowMs := 0 }
            { productUrl := "https://www.amazon.in/dp/XYZ" }).2).map
          (fun ev => ev.progress)) := by
  have h : (((generateLandingPage
      { browseAi := Except.error "Browse AI task failed"
        serpApi := Except.error "Failed to extract product information"
        classifyChat := Except.ok ""
        themeChat := Except.ok ""
        contentChat := Except.ok ""
        parseClassification := fun _ => none
        parseTheme := fun _ => none
        parseContent := fun _ => none
        processImages := fun _ => []
        nowMs := 0 }
      { productUrl := "https://www.amazon.in/dp/XYZ" }).2).map
        (fun ev => ev.progress)) = [0, 10, 0] := rfl
  rw [h]
  simp [List.chain'_cons]

/-- C5 amended: in every run each reported progress value lies in
[0,100] and the completed flag is true exactly when progress is 100; a
successful run delivers its events in strictly increasing progress
order; a failing run delivers every event before the final error event
in strictly increasing progress order, but the final error event itself
carries progress 0, so failing runs are not monotonically
non-decreasing. -/
theorem generateLandingPage_progress_spec (env : PipelineEnv)
    (request : GenerateLandingPageRequest) :
    (∀ ev ∈ (generateLandingPage env request).2,
        ev.progress ≤ 100 ∧ (ev.completed = true ↔ ev.progress = 100))
    ∧ (∀ d, (generateLandingPage env request).1 = Except.ok d →
        List.Chain' (fun a b => a < b)
          (((generateLandingPage env request).2).map (fun ev => ev.progress)))
    ∧ (∀ e, (generateLandingPage env request).1 = Except.error e →
        ∃ pre, (generateLandingPage env request).2 = pre ++ [errorEvent e]
          ∧ List.Chain' (fun a b => a < b) (pre.map (fun ev => ev.progress))
          ∧ (errorEvent e).progress = 0) := by
  cases hx : extractProductInfoStep env with
  | error e0 =>
      refine progress_spec_of_error_run env request e0 [startEvent, extractEvent] ?_
        (by decide) (by simp [startEvent, extractEvent, classifyEvent, designEvent, contentEvent, imagesEvent, countdownEvent, formEvent, completedEvent, updateProgressEvent, List.chain'_cons])
      simp [generateLandingPage, hx]
  | ok productInfo =>
      cases hc : classifyProduct env.classifyChat env.parseClassification productInfo with
      | error e0 =>
          refine progress_spec_of_error_run env request e0
            [startEvent, extractEvent, classifyEvent] ?_ (by decide) (by simp [startEvent, extractEvent, classifyEvent, designEvent, contentEvent, imagesEvent, countdownEvent, formEvent, completedEvent, updateProgressEvent, List.chain'_cons])
          simp [generateLandingPage, hx, hc]
      | ok classification =>
          cases ht : generateDesignTheme env.themeChat env.parseTheme with
          | error e0 =>
              refine progress_spec_of_error_run env request e0
                [startEvent, extractEvent, classifyEvent, designEvent] ?_
                (by decide) (by simp [startEvent, extractEvent, classifyEvent, designEvent, contentEvent, imagesEvent, countdownEvent, formEvent, completedEvent, updateProgressEvent, List.chain'_cons])
              simp [generateLandingPage, hx, hc, ht]
          | ok theme =>
              cases hg : generateContent env.contentChat env.parseContent productInfo with
              | error e0 =>
                  refine progress_spec_of_error_run env request e0
                    [startEvent, extractEvent, classifyEvent, designEvent, contentEvent] ?_
                    (by decide) (by simp [startEvent, extractEvent, classifyEvent, designEvent, contentEvent, imagesEvent, countdownEvent, formEvent, completedEvent, updateProgressEvent, List.chain'_cons])
                  simp [generateLandingPage, hx, hc, ht, hg]
              | ok content =>
                  have h2 : (generateLandingPage env request).2
                      = [startEvent, extractEvent, classifyEvent, designEvent, contentEvent,
                         imagesEvent, countdownEvent, formEvent, completedEvent] := by
                    simp [generateLandingPage, hx, hc, ht, hg]
                  have h1 : ∀ e, (generateLandingPage env request).1 ≠ Except.error e := by
                    intro e
                    simp [generateLandingPage, hx, hc, ht, hg]
                  refine ⟨?_, ?_, ?_⟩
                  · rw [h2]; decide
                  · intro d hd
                    rw [h2]
                    simp [startEvent, extractEvent, classifyEvent, designEvent, contentEvent, imagesEvent, countdownEvent, formEvent, completedEvent, updateProgressEvent, List.chain'_cons]
                  · intro e he
                    exact absurd he (h1 e)

/-- C5 witness: the amended statement instantiated on a run that
succeeds, yielding the strictly increasing progress sequence. -/
theorem generateLandingPage_progress_spec_witness :
    List.Chain' (fun a b => a < b)
      (((generateLandingPage c4Env c4Req).2).map (fun ev => ev.progress)) := by
  have h := (generateLandingPage_progress_spec c4Env c4Req).2.1
  exact h _ rfl

/-- C7: when the classification chat reply fails to parse as JSON,
classifyProduct still returns a classification (it does not abort):
the deterministic default with category other, subcategory general,
audience general and a priceRange bucketed from the known price
(below 50 budget, below 200 mid-range, otherwise premium). -/
theorem classifyProduct_parse_fallback (chat : Except String String)
    (parse : String → Option ProductClassification) (productInfo : ProductInfo)
    (reply : String) (h1 : chat = Except.ok reply) (h2 : parse reply = none) :
    ∃ c, classifyProduct chat parse productInfo = Except.ok c
      ∧ c.category = ProductCategory.other
      ∧ c.subcategory = "general"
      ∧ c.targetAudience = TargetAudience.general
      ∧ c.priceRange = (if productInfo.price < 50 then PriceRange.budget
          else if productInfo.price < 200 then PriceRange.midRange
          else PriceRange.premium) := by
  refine ⟨fallbackClassification productInfo, ?_, rfl, rfl, rfl, rfl⟩
  simp [classifyProduct, h1, h2]

/-- C7 witness: a concrete unparseable reply for a 99-priced product
falls back to the mid-range default classification. -/
theorem classifyProduct_parse_fallback_witness :
    ∃ c, classifyProduct (Except.ok "not json") (fun _ => none) c4Info = Except.ok c
      ∧ c.category = ProductCategory.other
      ∧ c.subcategory = "general"
      ∧ c.targetAudience = TargetAudience.general
      ∧ c.priceRange = (if c4Info.price < 50 then PriceRange.budget
          else if c4Info.price < 200 then PriceRange.midRange
          else PriceRange.premium) :=
  classifyProduct_parse_fallback (Except.ok "not json") (fun _ => none) c4Info
    "not json" rfl rfl

/-! ### COD order service -/

/-- CODFormData of the landing page generator types. -/
structure CODFormData where
  name : String
  phone : String
  email : Option String := none
  address : String
  city : String
  state : String
  pincode : String
  quantity : Nat
  variant : Option String := none
deriving DecidableEq, Repr

/-- The test of a regex of the exact shape caret [0-9] braces n end:
the string consists of exactly n ASCII digits. -/
def digitsOnly (s : String) (n : Nat) : Bool :=
  s.length == n && s.data.all (fun c => c.isDigit)

/-- The test of the email regex of validateCODForm: one non-whitespace
non-at segment, an at sign, then a non-whitespace at-free remainder
containing a dot that has at least one character on each side. -/
def emailPatternTest (s : String) : Bool :=
  let l := s.data
  let a := l.takeWhile (fun c => c != '@')
  match l.drop a.length with
  | '@' :: r =>
      (!a.isEmpty) && l.all (fun c => !c.isWhitespace) && r.all (fun c => c != '@')
        && ((r.drop 1).dropLast.contains '.')
  | _ => false

/-- The errors array built by codOrderService.validateCODForm, in source
order: every field is checked and contributes its message when violated. -/
def codViolationMessages (f : CODFormData) : List String :=
  (if f.name.length < 2 then ["Name must be at least 2 characters long"] else [])
  ++ (if (!digitsOnly f.phone 10) = true then ["Phone number must be 10 digits"] else [])
  ++ (match f.email with
      | some e => if ((e != "") && !emailPatternTest e) = true
                  then ["Invalid email format"] else []
      | none => [])
  ++ (if f.address.length < 10 then ["Address must be at least 10 characters long"] else [])
  ++ (if f.city.length < 2 then ["City is required"] else [])
  ++ (if f.state.length < 2 then ["State is required"] else [])
  ++ (if (!digitsOnly f.pincode 6) = true then ["Pincode must be 6 digits"] else [])
  ++ (if f.quantity < 1 ∨ f.quantity > 10 then ["Quantity must be between 1 and 10"] else [])

/-- Array.prototype.join of the errors array with separator comma-space. -/
def joinComma : List String → String
  | [] => ""
  | [x] => x
  | x :: y :: ys => x ++ ", " ++ joinComma (y :: ys)

/-- codOrderService.validateCODForm: collect all violations, then throw
once with the joined message when any exist. -/
def validateCODForm (f : CODFormData) : Except String Unit :=
  let errors := codViolationMessages f
  if errors.isEmpty then Except.ok () else Except.error (joinComma errors)

/-- The message m mentions sub: sub occurs contiguously inside m. -/
def mentions (m sub : String) : Prop :=
  ∃ pre post, m.data = pre ++ sub.data ++ post

theorem joinComma_mentions (l : List String) (x : String) (hx : x ∈ l) :
    mentions (joinComma l) x := by
  induction l with
  | nil => cases hx
  | cons y ys ih =>
      cases ys with
      | nil =>
          rcases List.mem_singleton.mp hx with rfl
          exact ⟨[], [], by simp [joinComma]⟩
      | cons z zs =>
          rcases List.mem_cons.mp hx with rfl | hmem
          · refine ⟨[], (", ").data ++ (joinComma (z :: zs)).data, ?_⟩
            simp [joinComma, String.data_append]
          · obtain ⟨p, q, hpq⟩ := ih hmem
            refine ⟨y.data ++ (", ").data ++ p, q, ?_⟩
            simp [joinComma, String.data_append, hpq]

/-- C6: validateCODForm checks every field: it succeeds exactly when all
eight field conditions hold, any error message is the comma join of all
violated-field messages, and in particular a violated phone pattern
always surfaces the phone message inside the single raised error, and an
out-of-range quantity always surfaces the quantity message, regardless
of the other fields. -/
theorem validateCODForm_aggregates (f : CODFormData) :
    (validateCODForm f = Except.ok () ↔
        (2 ≤ f.name.length ∧ digitsOnly f.phone 10 = true
         ∧ (∀ e, f.email = some e → e ≠ "" → emailPatternTest e = true)
         ∧ 10 ≤ f.address.length ∧ 2 ≤ f.city.length ∧ 2 ≤ f.state.length
         ∧ digitsOnly f.pincode 6 = true ∧ 1 ≤ f.quantity ∧ f.quantity ≤ 10))
    ∧ (∀ m, validateCODForm f = Except.error m → m = joinComma (codViolationMessages f))
    ∧ (digitsOnly f.phone 10 = false →
        ∃ m, validateCODForm f = Except.error m
          ∧ mentions m "Phone number must be 10 digits")
    ∧ ((f.quantity < 1 ∨ 10 < f.quantity) →
        ∃ m, validateCODForm f = Except.error m
          ∧ mentions m "Quantity must be between 1 and 10") := by
  refine ⟨?_, ?_, ?_, ?_⟩
  · have hiff : validateCODForm f = Except.ok () ↔ codViolationMessages f = [] := by
      simp only [validateCODForm]
      split
      · rename_i hemp
        rw [List.isEmpty_iff] at hemp
        simp [hemp]
      · rename_i hemp
        rw [List.isEmpty_iff] at hemp
        simp [hemp]
    rw [hiff]
    have hblockP : ∀ (c : Prop) (inst : Decidable c) (m : String),
        ((if c then [m] else []) = ([] : List String)) ↔ ¬ c := by
      intro c inst m
      split
      · simp [*]
      · simp [*]
    cases hem : f.email with
    | none =>
        simp only [codViolationMessages, hem, List.append_eq_nil, hblockP, List.nil_append,
          not_or, Nat.not_lt, Bool.not_eq_true', Bool.and_eq_true, bne_iff_ne, ne_eq,
          Bool.not_eq_false, not_and, reduceCtorEq, false_implies, forall_const]
        tauto
    | some e =>
        simp only [codViolationMessages, hem, List.append_eq_nil, hblockP, List.nil_append,
          not_or, Nat.not_lt, Bool.not_eq_true', Bool.and_eq_true, bne_iff_ne, ne_eq,
          Bool.not_eq_false, not_and, Option.some.injEq, forall_eq']
        tauto
  · intro m hm
    simp only [validateCODForm] at hm
    split at hm
    · exact absurd hm (by simp)
    · simpa using hm.symm
  · intro hp
    have hmem : "Phone number must be 10 digits" ∈ codViolationMessages f := by
      simp [codViolationMessages, hp]
    have hne : codViolationMessages f ≠ [] := List.ne_nil_of_mem hmem
    refine ⟨joinComma (codViolationMessages f), ?_, joinComma_mentions _ _ hmem⟩
    simp only [validateCODForm]
    rw [if_neg (by simp [List.isEmpty_iff, hne])]
  · intro hq
    have hmem : "Quantity must be between 1 and 10" ∈ codViolationMessages f := by
      simp only [codViolationMessages]
      rw [if_pos hq]
      simp
    have hne : codViolationMessages f ≠ [] := List.ne_nil_of_mem hmem
    refine ⟨joinComma (codViolationMessages f), ?_, joinComma_mentions _ _ hmem⟩
    simp only [validateCODForm]
    rw [if_neg (by simp [List.isEmpty_iff, hne])]

def c6Form : CODFormData :=
  { name := "Al Amin", phone := "12345", address := "123 Long Enough Address",
    city := "Pune", state := "MH", pincode := "411001", quantity := 11 }

/-- C6 witness: a 5-digit phone and quantity 11 both surface their
messages inside the single raised error. -/
theorem validateCODForm_aggregates_witness :
    (∃ m, validateCODForm c6Form = Except.error m
        ∧ mentions m "Phone number must be 10 digits")
    ∧ (∃ m2, validateCODForm c6Form = Except.error m2
        ∧ mentions m2 "Quantity must be between 1 and 10") := by
  have h := validateCODForm_aggregates c6Form
  exact ⟨h.2.2.1 (by decide), h.2.2.2 (Or.inr (by decide))⟩

/-- A base-36 digit as the lowercase character that Number.toString(36)
emits: 0-9 then a-z. -/
def b36Char (d : Fin 36) : Char :=
  if d.val < 10 then Char.ofNat (48 + d.val) else Char.ofNat (87 + d.val)

/-- String.prototype.toUpperCase for the ASCII strings involved here. -/
def jsToUpper (s : String) : String := String.mk (s.data.map Char.toUpper)

/-- Fuelled positional base-36 expansion (most significant digit first),
the digit sequence of Number.prototype.toString(36) on a natural
number.  The fuel n + 1 always suffices. -/
def toDigits36Core : Nat → Nat → List (Fin 36) → List (Fin 36)
  | 0, _, acc => acc
  | fuel + 1, n, acc =>
      let acc2 := (⟨n % 36, Nat.mod_lt n (by omega)⟩ : Fin 36) :: acc
      if n / 36 = 0 then acc2 else toDigits36Core fuel (n / 36) acc2

/-- The base-36 digits of n, most significant first; 0 yields the single
digit 0, as Number.prototype.toString(36) does. -/
def toDigits36 (n : Nat) : List (Fin 36) := toDigits36Core (n + 1) n []

/-- Date.now().toString(36): the base-36 rendering of the timestamp. -/
def natToStr36 (n : Nat) : String := String.mk ((toDigits36 n).map b36Char)

/-- codOrderService.generateOrderId.  The template is COD-, the base-36
timestamp, a dash, then Math.random().toString(36).substr(2, 5), all
uppercased.  Math.random() yields 0.d1 d2 d3 ... in base 36 (just 0 when
the value is zero); substr(2, 5) drops the 0. prefix and keeps at most
the first five fraction digits, so the random tail is modelled by the
(possibly short) fraction digit list rand. -/
def generateOrderId (ts : Nat) (rand : List (Fin 36)) : String :=
  jsToUpper ("COD-" ++ natToStr36 ts ++ "-" ++ String.mk ((rand.take 5).map b36Char))

/-- A character of the class [0-9A-Z]. -/
def isB36U (c : Char) : Bool :=
  (decide ('0' ≤ c) && decide (c ≤ '9')) || (decide ('A' ≤ c) && decide (c ≤ 'Z'))

/-- Full-match test of the pattern COD-[0-9A-Z]+-[0-9A-Z]{5}.  Because
the character class excludes the dash, the greedy split is the only
possible one, so this decides the regex exactly. -/
def matchesOrderIdPat (s : String) : Bool :=
  match s.data with
  | 'C' :: 'O' :: 'D' :: '-' :: rest =>
      (!(rest.takeWhile isB36U).isEmpty) &&
      (match rest.dropWhile isB36U with
       | '-' :: b => (b.length == 5) && b.all isB36U
       | _ => false)
  | _ => false

/-- The result triple of codOrderService.submitOrder. -/
structure SubmitOrderResult where
  orderId : String
  success : Bool
  message : String
deriving DecidableEq, Repr

/-- codOrderService.submitOrder: validate the form (returning the thrown
message with an empty orderId on failure), otherwise generate the order
id and answer success.  The timestamp and the random fraction digits
feeding generateOrderId are passed explicitly. -/
def submitOrder (ts : Nat) (rand : List (Fin 36)) (formData : CODFormData) :
    SubmitOrderResult :=
  match validateCODForm formData with
  | Except.error m => { orderId := "", success := false, message := m }
  | Except.ok _ =>
      { orderId := generateOrderId ts rand
        success := true
        message := "Order placed successfully! You will receive a confirmation call within 2 hours." }

theorem b36Char_toUpper_isB36U : ∀ d : Fin 36, isB36U (Char.toUpper (b36Char d)) = true := by
  decide

theorem toDigits36Core_suffix (fuel n : Nat) (acc : List (Fin 36)) :
    ∃ l, toDigits36Core fuel n acc = l ++ acc := by
  induction fuel generalizing n acc with
  | zero => exact ⟨[], rfl⟩
  | succ fuel ih =>
      simp only [toDigits36Core]
      split
      · exact ⟨[⟨n % 36, Nat.mod_lt n (by omega)⟩], rfl⟩
      · obtain ⟨l, hl⟩ := ih (n / 36) ((⟨n % 36, Nat.mod_lt n (by omega)⟩ : Fin 36) :: acc)
        exact ⟨l ++ [⟨n % 36, Nat.mod_lt n (by omega)⟩], by simp [hl]⟩

theorem toDigits36_ne_nil (n : Nat) : toDigits36 n ≠ [] := by
  simp only [toDigits36, toDigits36Core]
  split
  · simp
  · obtain ⟨l, hl⟩ := toDigits36Core_suffix n (n / 36)
      [(⟨n % 36, Nat.mod_lt n (by omega)⟩ : Fin 36)]
    rw [hl]
    simp

theorem takeWhile_append_of_all {α : Type} (p : α → Bool) (l r : List α)
    (h : ∀ x ∈ l, p x = true) :
    (l ++ r).takeWhile p = l ++ r.takeWhile p := by
  induction l with
  | nil => simp
  | cons a as ih =>
      have ha := h a (by simp)
      simp [List.takeWhile_cons, ha, ih (fun x hx => h x (by simp [hx]))]

theorem dropWhile_append_of_all {α : Type} (p : α → Bool) (l r : List α)
    (h : ∀ x ∈ l, p x = true) :
    (l ++ r).dropWhile p = r.dropWhile p := by
  induction l with
  | nil => simp
  | cons a as ih =>
      have ha := h a (by simp)
      simp [List.dropWhile_cons, ha, ih (fun x hx => h x (by simp [hx]))]

theorem matchesOrderIdPat_generateOrderId (ts : Nat) (rand : List (Fin 36))
    (hlen : 5 ≤ rand.length) :
    matchesOrderIdPat (generateOrderId ts rand) = true := by
  have hCOD : ("COD-" ++ natToStr36 ts ++ "-"
      ++ String.mk ((rand.take 5).map b36Char)).data
      = ['C', 'O', 'D', '-'] ++ ((toDigits36 ts).map b36Char)
        ++ ['-'] ++ ((rand.take 5).map b36Char) := by
    simp [String.data_append, natToStr36]
  have hfix1 : List.map Char.toUpper ['C', 'O', 'D', '-'] = ['C', 'O', 'D', '-'] := by decide
  have hfix2 : List.map Char.toUpper ['-'] = ['-'] := by decide
  have hupper : (generateOrderId ts rand).data
      = 'C' :: 'O' :: 'D' :: '-' ::
        (((toDigits36 ts).map (fun d => Char.toUpper (b36Char d)))
          ++ '-' :: ((rand.take 5).map (fun d => Char.toUpper (b36Char d)))) := by
    show (("COD-" ++ natToStr36 ts ++ "-"
        ++ String.mk ((rand.take 5).map b36Char)).data.map Char.toUpper) = _
    rw [hCOD]
    simp only [List.map_append, hfix1, hfix2, List.map_map]
    simp [Function.comp_def]
  have hall : ∀ x ∈ (toDigits36 ts).map (fun d => Char.toUpper (b36Char d)),
      isB36U x = true := by
    intro x hx
    obtain ⟨d, _, rfl⟩ := List.mem_map.mp hx
    exact b36Char_toUpper_isB36U d
  have hdash : isB36U '-' = false := by decide
  have htw : ((((toDigits36 ts).map (fun d => Char.toUpper (b36Char d)))
      ++ '-' :: ((rand.take 5).map (fun d => Char.toUpper (b36Char d)))).takeWhile isB36U)
      = ((toDigits36 ts).map (fun d => Char.toUpper (b36Char d))) := by
    rw [takeWhile_append_of_all isB36U _ _ hall]
    simp [List.takeWhile_cons, hdash]
  have hdw : ((((toDigits36 ts).map (fun d => Char.toUpper (b36Char d)))
      ++ '-' :: ((rand.take 5).map (fun d => Char.toUpper (b36Char d)))).dropWhile isB36U)
      = '-' :: ((rand.take 5).map (fun d => Char.toUpper (b36Char d))) := by
    rw [dropWhile_append_of_all isB36U _ _ hall]
    simp [List.dropWhile_cons, hdash]
  have hne : ((toDigits36 ts).map (fun d => Char.toUpper (b36Char d))) ≠ [] := by
    simp [toDigits36_ne_nil ts]
  have htail : ∀ x ∈ (rand.take 5).map (fun d => Char.toUpper (b36Char d)),
      isB36U x = true := by
    intro x hx
    obtain ⟨d, _, rfl⟩ := List.mem_map.mp hx
    exact b36Char_toUpper_isB36U d
  have hlen5 : ((rand.take 5).map (fun d => Char.toUpper (b36Char d))).length = 5 := by
    simp [List.length_take, Nat.min_eq_left hlen]
  simp only [matchesOrderIdPat, hupper, htw, hdw]
  refine (Bool.and_eq_true _ _).mpr ⟨?_, (Bool.and_eq_true _ _).mpr ⟨?_, ?_⟩⟩
  · simp [List.isEmpty_iff, hne]
  · rw [hlen5]
    rfl
  · rw [List.all_eq_true]
    exact htail

/-- C10 counterexample: with timestamp 0 and the random draw 0.5 (whose
base-36 rendering is 0.i, so substr(2,5) keeps the single digit i), the
fully valid example submission succeeds but returns the orderId COD-0-I,
whose random part has one character rather than five, refuting the
claimed match of COD-[0-9A-Z]+-[0-9A-Z] with exactly five trailing
characters. -/
theorem submitOrder_short_random_cex :
    (submitOrder 0 [(18 : Fin 36)]
        { name := "Al Amin", phone := "9876543210", address := "123 Long Enough Address",
          city := "Pune", state := "MH", pincode := "411001", quantity := 3 }).success = true
    ∧ matchesOrderIdPat (submitOrder 0 [(18 : Fin 36)]
        { name := "Al Amin", phone := "9876543210", address := "123 Long Enough Address",
          city := "Pune", state := "MH", pincode := "411001", quantity := 3 }).orderId
        = false := by
  constructor
  · decide
  · decide

/-- C10 amended: every fully valid submission succeeds and returns an
orderId of the form COD-<base36 timestamp>-<up to 5 random base36
chars>, uppercased; it matches COD-[0-9A-Z]+-[0-9A-Z] with exactly five
trailing characters precisely when the random value's base-36 fraction
expansion supplies at least five digits, which the source does not
guarantee. -/
theorem submitOrder_valid_succeeds (ts : Nat) (rand : List (Fin 36)) (f : CODFormData)
    (hlen : 5 ≤ rand.length) (hok : validateCODForm f = Except.ok ()) :
    (submitOrder ts rand f).success = true
    ∧ matchesOrderIdPat (submitOrder ts rand f).orderId = true := by
  constructor
  · simp [submitOrder, hok]
  · have ho : (submitOrder ts rand f).orderId = generateOrderId ts rand := by
      simp [submitOrder, hok]
    rw [ho]
    exact matchesOrderIdPat_generateOrderId ts rand hlen

/-- C10 witness: the example submission of the claim with a 5-digit
random draw produces a matching id. -/
theorem submitOrder_valid_succeeds_witness :
    (submitOrder 1700000000000 [(1 : Fin 36), 2, 3, 4, 5]
        { name := "Al Amin", phone := "9876543210", address := "123 Long Enough Address",
          city := "Pune", state := "MH", pincode := "411001", quantity := 3 }).success = true
    ∧ matchesOrderIdPat (submitOrder 1700000000000 [(1 : Fin 36), 2, 3, 4, 5]
        { name := "Al Amin", phone := "9876543210", address := "123 Long Enough Address",
          city := "Pune", state := "MH", pincode := "411001", quantity := 3 }).orderId
        = true :=
  submitOrder_valid_succeeds 1700000000000 [1, 2, 3, 4, 5] _ (by decide) rfl

end ArabiFlow
